import Mathlib

/-
Verification development for the print client of aws-serverless-print-server
(src/client/check-setup.js, the long-running client part of the file).

The JavaScript source is shallowly embedded: each JS function that the
claims touch is translated into a Lean definition of the same name.
External collaborators (AWS SDK calls, the filesystem, child_process.exec,
the JS runtime builtin decodeURIComponent, signal delivery) are modelled as
fields of explicit environment structures; the repository code itself is
translated statement by statement.  JS Map objects become association
lists with unique keys, JS numbers holding timestamps and counters become
Int, and JS exceptions become Except values.
-/

namespace PrintServer

/- Splitting a list of characters at a separator, the semantics of the JS
String.prototype.split with a single-character separator.  splitAux returns
the first group and the remaining groups. -/
def splitAux (sep : Char) : List Char → List Char × List (List Char)
  | [] => ([], [])
  | c :: cs =>
    if c = sep then ([], (splitAux sep cs).1 :: (splitAux sep cs).2)
    else (c :: (splitAux sep cs).1, (splitAux sep cs).2)

def splitOnChar (sep : Char) (l : List Char) : List (List Char) :=
  (splitAux sep l).1 :: (splitAux sep l).2

/- Model of the JS String.prototype.startsWith used by the namespace
filter. -/
def strStartsWith (s pre : String) : Bool :=
  pre.data.isPrefixOf s.data

/- Model of node path.basename for the object keys that occur here (the
final slash-separated component). -/
def basename (s : String) : String :=
  ⟨(splitOnChar '/' s.data).getLastD []⟩

/- Model of JS String.prototype.trim. -/
def jsTrim (s : String) : String :=
  ⟨((s.data.dropWhile Char.isWhitespace).reverse.dropWhile Char.isWhitespace).reverse⟩

/- Translation of getLocalPrinterName:
"_" + printerIp.replace(/\./g, "_"). -/
def getLocalPrinterName (printerIp : String) : String :=
  ⟨'_' :: printerIp.data.map (fun c => if c = '.' then '_' else c)⟩

/- One group of the dotted-quad regex: \d{1,3}. -/
def isDigitGroup (g : List Char) : Bool :=
  decide (1 ≤ g.length) && decide (g.length ≤ 3) && g.all Char.isDigit

/- Translation of the test of the regex /^(\d{1,3}\.){3}\d{1,3}$/ used in
printFile: exactly four dot-separated groups of one to three digits. -/
def isDottedQuad (s : String) : Bool :=
  let gs := splitOnChar '.' s.data
  decide (gs.length = 4) && gs.all isDigitGroup

/- Translation of the printer-identifier analysis at the top of printFile:
the slash branch assigns printerIp and protocol from a two-part split, the
slashless branch applies the dotted-quad default to ipp, and the final
truthiness test `if (printerIp && protocol)` discards empty strings. -/
def resolvePrinterId (printerId : String) : Option (String × String) :=
  let pair : Option String × Option String :=
    if printerId.data.contains '/' then
      match splitOnChar '/' printerId.data with
      | [a, b] => (some ⟨a⟩, some ⟨b⟩)
      | _ => (none, none)
    else if isDottedQuad printerId then (some printerId, some "ipp")
    else (none, none)
  match pair with
  | (some ip, some proto) => if ip ≠ "" ∧ proto ≠ "" then some (ip, proto) else none
  | _ => none

/- Resolved destination of a job: a network printer with transport
protocol and host address, or a direct local device name. -/
inductive Resolved where
  | network (address protocol : String)
  | direct (name : String)
deriving DecidableEq

/- The resolver of printFile as a total function into Resolved: the
non-network case uses the raw identifier as the local device name. -/
def printFileResolve (printerId : String) : Resolved :=
  match resolvePrinterId printerId with
  | some (ip, proto) => .network ip proto
  | none => .direct printerId

/- Written from the words of the claim, for comparison with the code: rule
one, an identifier containing exactly one slash splits into address and
protocol; rule two, otherwise a dotted-quad identifier defaults to ipp;
rule three, otherwise a direct local device name. -/
def claimResolve (s : String) : Resolved :=
  if s.data.count '/' = 1 then
    match splitOnChar '/' s.data with
    | [a, b] => .network ⟨a⟩ ⟨b⟩
    | _ => .direct s
  else if isDottedQuad s then .network s "ipp"
  else .direct s

/- The claim amended as little as the counterexample forces: rule one
applies only when both sides of the single slash are nonempty; an
identifier with an empty side is treated as a direct name. -/
def claimResolveAmended (s : String) : Resolved :=
  if s.data.count '/' = 1 then
    match splitOnChar '/' s.data with
    | [a, b] =>
      if (⟨a⟩ : String) ≠ "" ∧ (⟨b⟩ : String) ≠ "" then .network ⟨a⟩ ⟨b⟩
      else .direct s
    | _ => .direct s
  else if isDottedQuad s then .network s "ipp"
  else .direct s

/- Environment of the local print subsystem and dry-run switch: TEST_MODE,
the outcome of execPromise("lpstat -p -d"), the outcomes of the lpadmin
and lp commands, and which PPD driver files exist next to the script
(fs.existsSync; paths are modelled by their basenames). -/
structure PrintEnv where
  testMode : Bool
  lpstatOutput : Except Unit String
  lpadminOk : Bool
  lpOk : Bool
  ppdFiles : List String

/- Model of the JS String.prototype.includes with a string argument:
needle occurs as a contiguous run of the haystack. -/
def hasSubstr (needle : List Char) : List Char → Bool
  | [] => needle.isEmpty
  | c :: cs => needle.isPrefixOf (c :: cs) || hasSubstr needle cs

/- Translation of the body shared by isPrinterRegistered and
isPrinterRegisteredByName: run lpstat, report failure as false, otherwise
test stdout.includes(name). -/
def printerListedB (pe : PrintEnv) (name : String) : Bool :=
  match pe.lpstatOutput with
  | .error _ => false
  | .ok out => hasSubstr name.data out.data

/- Translation of getPPDPathForPrinter.  The ip argument of the source is
unused by its logic and dropped here; path.join with __dirname is dropped,
files are identified by basename. -/
def getPPDPathForPrinter (ppdFiles : List String) (protocol : String) : Option String :=
  if protocol = "ipp" then none
  else if protocol = "lpd" && ppdFiles.contains "ZebraPrinterPPD" then some "ZebraPrinterPPD"
  else if ppdFiles.contains "BrotherQL820NwbCupsPpd.gz" then some "BrotherQL820NwbCupsPpd.gz"
  else if ppdFiles.contains "brother_ql820nwb_printer_en.ppd" then some "brother_ql820nwb_printer_en.ppd"
  else if ppdFiles.contains "ZebraPrinterPPD" then some "ZebraPrinterPPD"
  else none

/- Result of registerNewPrinter: the returned boolean, the external
commands actually executed, and whether the `Unsupported protocol` Error
was thrown (it is caught inside the function itself). -/
structure RegResult where
  ok : Bool
  cmds : List String
  raisedUnsupported : Bool
deriving DecidableEq

/- The lpadmin command text built by registerNewPrinter, per protocol and
optional PPD path. -/
def regCommand (name ip protocol : String) (ppd : Option String) : Option String :=
  if protocol = "socket" then
    some (match ppd with
      | some p => "lpadmin -p " ++ name ++ " -E -v \"socket://" ++ ip ++ "/\" -P \"" ++ p ++ "\""
      | none => "lpadmin -p " ++ name ++ " -E -v \"socket://" ++ ip ++ "/\" -m everywhere")
  else if protocol = "lpd" then
    some (match ppd with
      | some p => "lpadmin -p " ++ name ++ " -E -v \"lpd://" ++ ip ++ "\" -P \"" ++ p ++ "\""
      | none => "lpadmin -p " ++ name ++ " -E -v \"lpd://" ++ ip ++ "\" -m everywhere")
  else if protocol = "ipp" then
    some ("lpadmin -p " ++ name ++ " -E -v \"ipp://" ++ ip ++ "/ipp/print\" -m everywhere")
  else none

/- Translation of registerNewPrinter.  An unsupported protocol throws
inside the try block; the catch logs and returns false, so no command is
executed.  In TEST_MODE the command is only logged.  A failing lpadmin is
caught and turned into false; on success the function sleeps and returns
true. -/
def registerNewPrinter (pe : PrintEnv) (ip protocol : String) : RegResult :=
  let name := getLocalPrinterName ip
  let ppd := getPPDPathForPrinter pe.ppdFiles protocol
  match regCommand name ip protocol ppd with
  | none => { ok := false, cmds := [], raisedUnsupported := true }
  | some cmd =>
    if pe.testMode then { ok := true, cmds := [], raisedUnsupported := false }
    else if pe.lpadminOk then { ok := true, cmds := [cmd], raisedUnsupported := false }
    else { ok := false, cmds := [cmd], raisedUnsupported := false }

/- The lp submission command text built by printFile:
`lp -d ${name} "${filePath}" ${printOptions}`.trim(). -/
def lpCommand (name filePath printOptions : String) : String :=
  jsTrim ("lp -d " ++ name ++ " \"" ++ filePath ++ "\" " ++ printOptions)

/- Result of printFile: its returned boolean, the external commands
executed along the way, and whether the unsupported-protocol Error was
raised during registration. -/
structure PrintRes where
  ok : Bool
  cmds : List String
  raisedUnsupported : Bool
deriving DecidableEq

/- Translation of printFile.  fileExists models fs.existsSync(filePath).
On the network branch it always runs lpstat (isPrinterRegistered),
registers when the derived local name is not listed, and then submits; on
the direct branch it runs lpstat (isPrinterRegisteredByName) and at most
warns.  In TEST_MODE the lp command is logged and true returned; otherwise
exec failure of lp is caught and false returned. -/
def printFile (pe : PrintEnv) (fileExists : Bool) (printerId filePath printOptions : String) : PrintRes :=
  if printerId = "" then { ok := false, cmds := [], raisedUnsupported := false }
  else if fileExists = false then { ok := false, cmds := [], raisedUnsupported := false }
  else
    match resolvePrinterId printerId with
    | some (ip, protocol) =>
      let registered := printerListedB pe (getLocalPrinterName ip)
      let reg : RegResult :=
        if registered = false then registerNewPrinter pe ip protocol
        else { ok := true, cmds := [], raisedUnsupported := false }
      let cmd := lpCommand (getLocalPrinterName ip) filePath printOptions
      let pre := "lpstat -p -d" :: reg.cmds
      if pe.testMode then { ok := true, cmds := pre, raisedUnsupported := reg.raisedUnsupported }
      else if pe.lpOk then { ok := true, cmds := pre ++ [cmd], raisedUnsupported := reg.raisedUnsupported }
      else { ok := false, cmds := pre ++ [cmd], raisedUnsupported := reg.raisedUnsupported }
    | none =>
      let cmd := lpCommand printerId filePath printOptions
      if pe.testMode then { ok := true, cmds := ["lpstat -p -d"], raisedUnsupported := false }
      else if pe.lpOk then { ok := true, cmds := ["lpstat -p -d", cmd], raisedUnsupported := false }
      else { ok := false, cmds := ["lpstat -p -d", cmd], raisedUnsupported := false }

/- JSON values, the possible results of a successful JSON.parse.  JSON
numbers are modelled as integers (no claim involves numeric payload
fields). -/
inductive Json where
  | null
  | bool (b : Bool)
  | num (n : Int)
  | str (s : String)
  | arr (elems : List Json)
  | obj (fields : List (String × Json))

/- A JS expression value as seen by property access: a JSON value or
undefined. -/
inductive JsVal where
  | undefined
  | val (j : Json)

/- JS truthiness of the values that can appear here. -/
def truthy : JsVal → Bool
  | .undefined => false
  | .val .null => false
  | .val (.bool b) => b
  | .val (.num n) => n ≠ 0
  | .val (.str s) => s ≠ ""
  | .val (.arr _) => true
  | .val (.obj _) => true

/- JS property access j.k on a parsed JSON value: a TypeError (error) on
null, a lookup on objects, undefined on the other values. -/
def getProp (j : Json) (k : String) : Except Unit JsVal :=
  match j with
  | .null => .error ()
  | .obj fields =>
    .ok (match fields.lookup k with
      | some v => .val v
      | none => .undefined)
  | _ => .ok .undefined

/- JS property access v.k where v itself may be undefined. -/
def getPropV (v : JsVal) (k : String) : Except Unit JsVal :=
  match v with
  | .undefined => .error ()
  | .val j => getProp j k

/- JS index access v[0]: a TypeError on undefined and null, the first
character of a string, the first element of an array, the "0" property of
an object, undefined otherwise. -/
def index0 (v : JsVal) : Except Unit JsVal :=
  match v with
  | .undefined => .error ()
  | .val .null => .error ()
  | .val (.bool _) => .ok .undefined
  | .val (.num _) => .ok .undefined
  | .val (.str s) =>
    .ok (match s.data with
      | [] => .undefined
      | c :: _ => .val (.str ⟨[c]⟩))
  | .val (.arr es) =>
    .ok (match es with
      | [] => .undefined
      | x :: _ => .val x)
  | .val (.obj fields) =>
    .ok (match fields.lookup "0" with
      | some v => .val v
      | none => .undefined)

/- The parser result of parseSqsMessage when the event-record shape is
present: the raw bucket-name value and the decoded object key. -/
structure ParsedS3 where
  bucket : JsVal
  key : String

/- The raw message: body is the result of JSON.parse on the SQS message
body, none when the body is not valid JSON and JSON.parse throws.
MessageId, ReceiptHandle and the receive-count attribute only feed log
lines and the delete call and are not modelled. -/
structure Message where
  body : Option Json

/- Translation of parseSqsMessage.  The decode argument models the JS
builtin decodeURIComponent applied to the raw key value (it both coerces
to a string and percent-decodes, and throws a URIError on a malformed
escape); it is part of the runtime, not of the repository code, so it is
passed in as part of the environment.  An Except error is a thrown JS
exception; an ok none is the `{ isValid: false }` return. -/
def parseSqsMessage (decode : JsVal → Except Unit String) (body : Option Json) :
    Except Unit (Option ParsedS3) :=
  match body with
  | none => .error ()
  | some parsed => do
    let recordsV ← getProp parsed "Records"
    let condV ← if truthy recordsV then index0 recordsV else pure recordsV
    if truthy condV then do
      let recordV ← index0 recordsV
      let s3V ← getPropV recordV "s3"
      let bucketV ← getPropV s3V "bucket"
      let nameV ← getPropV bucketV "name"
      let objectV ← getPropV s3V "object"
      let keyV ← getPropV objectV "key"
      let key ← decode keyV
      pure (some { bucket := nameV, key := key })
    else
      pure none

/- The processedKeys idempotency cache, a JS Map from S3 object key to the
timestamp of processing, as an association list with the operational
semantics of Map.get, Map.has and Map.set (set overwrites in place,
appends new keys at the end). -/
def mapGet : List (String × Int) → String → Option Int
  | [], _ => none
  | (k, v) :: rest, key => if k = key then some v else mapGet rest key

def mapHas (m : List (String × Int)) (key : String) : Bool :=
  (mapGet m key).isSome

def mapSet : List (String × Int) → String → Int → List (String × Int)
  | [], key, v => [(key, v)]
  | (k, w) :: rest, key, v =>
    if k = key then (k, v) :: rest else (k, w) :: mapSet rest key v

/- IDEMPOTENCY_CACHE_DURATION, one hour in milliseconds. -/
def IDEMPOTENCY_CACHE_DURATION : Int := 3600000

/- Translation of one firing of the interval body installed by
startIdempotencyCleanupTimer: collect the keys whose age strictly exceeds
the cache duration, then delete each of them. -/
def cleanupSweep (now : Int) (m : List (String × Int)) : List (String × Int) :=
  let expiredKeys := (m.filter (fun p => decide (IDEMPOTENCY_CACHE_DURATION < now - p.2))).map Prod.fst
  m.filter (fun p => !(expiredKeys.contains p.1))

/- The S3 object as the client sees it: user metadata of the stored object
and whether piping the body stream to the local file completes (false
models a stream error after the write stream created the file). -/
structure S3Object where
  metadata : List (String × String)
  streamOk : Bool

/- Metadata lookup with the JS `|| default` fallback: a missing or empty
value falls back. -/
def metaLookupOr (md : List (String × String)) (k dflt : String) : String :=
  match md.lookup k with
  | some v => if v = "" then dflt else v
  | none => dflt

/- Environment of one processMessage invocation.  clientId is CLIENT_ID;
decodeURIComponent models the JS builtin; the three shutdown flags are
the values the isShuttingDown global is observed to have at the three
points where the source reads it (the signal handler can set it at any
moment between them); getObject is the outcome of the GetObjectCommand;
deleteOk tells whether the DeleteMessageCommand send succeeds; unlinkOk
whether fs.unlinkSync succeeds; now is Date.now() at marking time. -/
structure Env where
  clientId : String
  decodeURIComponent : JsVal → Except Unit String
  shutdownAtStart : Bool
  shutdownAfterFetch : Bool
  shutdownAtEnd : Bool
  getObject : Except Unit S3Object
  deleteOk : Bool
  unlinkOk : Bool
  printEnv : PrintEnv
  now : Int

/- Observable per-message events, in order of occurrence: the GetObject
request, the creation of the local temporary file, each external command
executed by the print path, the printFile invocation with its returned
boolean, the idempotency-cache insertion, the DeleteMessage request, and
the removal of the temporary file. -/
inductive PEvent where
  | fetchReq
  | fileCreate (path : String)
  | execCmd (cmd : String)
  | printReq (printerId : String) (ok : Bool)
  | mark (key : String)
  | deleteReq
  | unlinkFile (path : String)
deriving DecidableEq

def isUnlink : PEvent → Bool
  | .unlinkFile _ => true
  | _ => false

/- Outcome of the try block of processMessage: events so far, the cache
after the block, the localFilePath variable (assigned only when the fetch
returned), and whether an exception reached the catch block. -/
structure TryOut where
  events : List PEvent
  keys : List (String × Int)
  localFilePath : Option String
  threw : Bool

/- The directory for downloaded files; the source uses __dirname/tmp. -/
def tmpFilePath (key : String) : String :=
  "tmp/" ++ basename key

/- The namespace filter string `clients/${CLIENT_ID}/`. -/
def clientsRoot (clientId : String) : String :=
  "clients/" ++ clientId ++ "/"

/- Translation of the try block of processMessage, after the counter
increment: the shutdown skip, the parse with its invalid-message delete,
the foreign-client delete, the duplicate delete, the fetch (GetObject,
then the metadata defaults, then the stream to disk), the second shutdown
skip, the printFile call whose boolean result the source discards, the
cache mark, and the delete request.  A failed DeleteMessage send throws
out of the block; the file path is assigned only after a fetch returns. -/
def processTry (env : Env) (msg : Message) (keys0 : List (String × Int)) : TryOut :=
  if env.shutdownAtStart then
    { events := [], keys := keys0, localFilePath := none, threw := false }
  else
    match parseSqsMessage env.decodeURIComponent msg.body with
    | .error _ => { events := [], keys := keys0, localFilePath := none, threw := true }
    | .ok none =>
      { events := [.deleteReq], keys := keys0, localFilePath := none, threw := !env.deleteOk }
    | .ok (some s3) =>
      if strStartsWith s3.key (clientsRoot env.clientId) = false then
        { events := [.deleteReq], keys := keys0, localFilePath := none, threw := !env.deleteOk }
      else if mapHas keys0 s3.key then
        { events := [.deleteReq], keys := keys0, localFilePath := none, threw := !env.deleteOk }
      else
        match env.getObject with
        | .error _ =>
          { events := [.fetchReq], keys := keys0, localFilePath := none, threw := true }
        | .ok obj =>
          if obj.streamOk = false then
            { events := [.fetchReq, .fileCreate (tmpFilePath s3.key)], keys := keys0,
              localFilePath := none, threw := true }
          else if env.shutdownAfterFetch then
            { events := [.fetchReq, .fileCreate (tmpFilePath s3.key)], keys := keys0,
              localFilePath := some (tmpFilePath s3.key), threw := false }
          else
            let printerId := metaLookupOr obj.metadata "printer" "unknown"
            let printOptions := metaLookupOr obj.metadata "print-options" ""
            let pr := printFile env.printEnv true printerId (tmpFilePath s3.key) printOptions
            { events := [.fetchReq, .fileCreate (tmpFilePath s3.key)] ++
                pr.cmds.map PEvent.execCmd ++
                [.printReq printerId pr.ok, .mark s3.key, .deleteReq],
              keys := mapSet keys0 s3.key env.now,
              localFilePath := some (tmpFilePath s3.key),
              threw := !env.deleteOk }

/- Result of one whole processMessage invocation: the event list, the
cache afterwards, the counter value while processing and after the
finally block, whether the catch block saw an exception, and whether the
finally block called process.exit. -/
structure PMResult where
  events : List PEvent
  keys : List (String × Int)
  countDuring : Int
  countFinal : Int
  threw : Bool
  exited : Bool

/- Translation of processMessage: increment the counter, run the try
block (exceptions land in the catch block, which only logs), then the
finally block: remove the temporary file when localFilePath was assigned
(the file still exists then), decrement the counter, and exit the process
when a shutdown is pending and the counter reached zero. -/
def processMessage (env : Env) (msg : Message) (keys0 : List (String × Int)) (c0 : Int) :
    PMResult :=
  let cDuring := c0 + 1
  let t := processTry env msg keys0
  let cleanupEvents : List PEvent :=
    match t.localFilePath with
    | some p => if env.unlinkOk then [.unlinkFile p] else []
    | none => []
  let cFinal := cDuring - 1
  { events := t.events ++ cleanupEvents,
    keys := t.keys,
    countDuring := cDuring,
    countFinal := cFinal,
    threw := t.threw,
    exited := env.shutdownAtEnd && cFinal == 0 }

/- A well-formed S3 event-notification body for one object key. -/
def sampleJson (key : String) : Json :=
  .obj [("Records", .arr [.obj [("s3", .obj
    [("bucket", .obj [("name", .str "printserver-test")]),
     ("object", .obj [("key", .str key)])])]])]

def sampleMsg (key : String) : Message :=
  { body := some (sampleJson key) }

/- decodeURIComponent restricted to the escape-free string keys used in
the concrete scenarios: the identity on strings. -/
def plainDecode : JsVal → Except Unit String :=
  fun v =>
    match v with
    | .val (.str s) => .ok s
    | _ => .error ()

def samplePrintEnv (testMode lpOk : Bool) : PrintEnv :=
  { testMode := testMode, lpstatOutput := .ok "", lpadminOk := true, lpOk := lpOk, ppdFiles := [] }

def sampleObj (streamOk : Bool) : S3Object :=
  { metadata := [("printer", "192.168.1.5/socket")], streamOk := streamOk }

def sampleEnv (testMode lpOk sdStart sdAfterFetch sdEnd streamOk deleteOk unlinkOk : Bool) : Env :=
  { clientId := "default-client",
    decodeURIComponent := plainDecode,
    shutdownAtStart := sdStart,
    shutdownAfterFetch := sdAfterFetch,
    shutdownAtEnd := sdEnd,
    getObject := .ok (sampleObj streamOk),
    deleteOk := deleteOk,
    unlinkOk := unlinkOk,
    printEnv := samplePrintEnv testMode lpOk,
    now := 1000 }

def sampleKey : String := "clients/default-client/label.pdf"

/- The destination identifier, the options string and the printFile result
of the dispatch step for a fetched object. -/
def jobPrinterId (obj : S3Object) : String :=
  metaLookupOr obj.metadata "printer" "unknown"

def jobPrintOptions (obj : S3Object) : String :=
  metaLookupOr obj.metadata "print-options" ""

def jobPrint (env : Env) (obj : S3Object) (key : String) : PrintRes :=
  printFile env.printEnv true (jobPrinterId obj) (tmpFilePath key) (jobPrintOptions obj)

/- Facts about splitOnChar needed for the resolver claims. -/

theorem splitAux_snd_length (sep : Char) (l : List Char) :
    ((splitAux sep l).2).length = l.count sep := by
  induction l with
  | nil => simp [splitAux]
  | cons c cs ih =>
    by_cases h : c = sep
    · subst h
      simp [splitAux, List.count_cons, ih]
    · simp [splitAux, h, List.count_cons, ih, Ne.symm h]

theorem splitOnChar_length (sep : Char) (l : List Char) :
    (splitOnChar sep l).length = l.count sep + 1 := by
  simp [splitOnChar, splitAux_snd_length]

theorem mem_splitOnChar (sep : Char) (l : List Char) (c : Char) (h : c ∈ l) :
    c = sep ∨ ∃ g ∈ splitOnChar sep l, c ∈ g := by
  induction l with
  | nil => cases h
  | cons x xs ih =>
    rcases List.mem_cons.mp h with rfl | hxs
    · by_cases hx : c = sep
      · exact .inl hx
      · refine .inr ⟨(splitAux sep (c :: xs)).1, by simp [splitOnChar], ?_⟩
        simp [splitAux, hx]
    · rcases ih hxs with h1 | ⟨g, hg, hcg⟩
      · exact .inl h1
      · rcases List.mem_cons.mp hg with rfl | hgs
        · by_cases hx : x = sep
          · refine .inr ⟨(splitAux sep xs).1, ?_, hcg⟩
            simp [splitOnChar, splitAux, hx]
          · refine .inr ⟨x :: (splitAux sep xs).1, ?_, List.mem_cons_of_mem _ hcg⟩
            simp [splitOnChar, splitAux, hx]
        · refine .inr ⟨g, ?_, hcg⟩
          by_cases hx : x = sep <;>
            simp [splitOnChar, splitAux, hx, hgs]

theorem isDottedQuad_chars {s : String} (h : isDottedQuad s = true) :
    ∀ c ∈ s.data, c.isDigit = true ∨ c = '.' := by
  intro c hc
  rcases mem_splitOnChar '.' s.data c hc with hdot | ⟨g, hg, hcg⟩
  · exact .inr hdot
  · left
    unfold isDottedQuad at h
    simp only [Bool.and_eq_true, decide_eq_true_eq, List.all_eq_true] at h
    have hgrp := h.2 g hg
    unfold isDigitGroup at hgrp
    simp only [Bool.and_eq_true, decide_eq_true_eq, List.all_eq_true] at hgrp
    exact hgrp.2 c hcg

theorem isDottedQuad_no_slash {s : String} (h : isDottedQuad s = true) :
    '/' ∉ s.data := by
  intro hm
  rcases isDottedQuad_chars h '/' hm with hd | hd
  · exact absurd hd (by decide)
  · exact absurd hd (by decide)

theorem isDottedQuad_ne_empty {s : String} (h : isDottedQuad s = true) :
    s ≠ "" := by
  intro he
  rw [he] at h
  exact absurd h (by decide)

theorem contains_eq_false_of_count_eq_zero {l : List Char} {c : Char}
    (h : l.count c = 0) : l.contains c = false := by
  rcases hb : l.contains c with _ | _
  · rfl
  · have hm : c ∈ l := List.elem_iff.mp hb
    have := List.count_pos_iff.mpr hm
    omega

theorem contains_eq_true_of_mem {l : List Char} {c : Char} (h : c ∈ l) :
    l.contains c = true :=
  List.elem_iff.mpr h

/- The code resolver agrees with the amended three-rule function on every
identifier string. -/
theorem printFileResolve_eq_amended (s : String) :
    printFileResolve s = claimResolveAmended s := by
  unfold printFileResolve resolvePrinterId claimResolveAmended
  rcases hsplit : splitOnChar '/' s.data with _ | ⟨a, tail⟩
  · exact absurd hsplit (by simp [splitOnChar])
  · have hlen := splitOnChar_length '/' s.data
    rw [hsplit] at hlen
    rcases tail with _ | ⟨b, tail2⟩
    · -- one group: no slash in the identifier
      have hcount : s.data.count '/' = 0 := by simpa using hlen.symm
      have hcont : s.data.contains '/' = false :=
        contains_eq_false_of_count_eq_zero hcount
      simp only [hcont, hcount, Bool.false_eq_true, if_false]
      rcases hdq : isDottedQuad s with _ | _
      · simp [hdq]
      · have hne : s ≠ "" := isDottedQuad_ne_empty hdq
        simp [hdq, hne]
    · rcases tail2 with _ | ⟨c, tail3⟩
      · -- two groups: exactly one slash
        have hcount : s.data.count '/' = 1 := by simpa using hlen.symm
        have hmem : '/' ∈ s.data := List.count_pos_iff.mp (by omega)
        have hcont : s.data.contains '/' = true := contains_eq_true_of_mem hmem
        simp only [hcont, if_true, hsplit, hcount, if_pos rfl]
        by_cases hab : (⟨a⟩ : String) ≠ "" ∧ (⟨b⟩ : String) ≠ ""
        · simp [hab]
        · simp [hab]
      · -- three or more groups: at least two slashes
        have hcount : 2 ≤ s.data.count '/' := by
          simp only [List.length_cons] at hlen
          omega
        have hmem : '/' ∈ s.data := List.count_pos_iff.mp (by omega)
        have hcont : s.data.contains '/' = true := contains_eq_true_of_mem hmem
        have hdq : isDottedQuad s = false := by
          rcases hq : isDottedQuad s with _ | _
          · rfl
          · exact absurd hmem (isDottedQuad_no_slash hq)
        have hne : s.data.count '/' ≠ 1 := by omega
        simp [hcont, hsplit, hne, hdq]

/- Facts about the cache operations. -/

theorem mapGet_mapSet_self (m : List (String × Int)) (k : String) (v : Int) :
    mapGet (mapSet m k v) k = some v := by
  induction m with
  | nil => simp [mapSet, mapGet]
  | cons p rest ih =>
    by_cases h : p.1 = k
    · simp [mapSet, mapGet, h]
    · simp [mapSet, mapGet, h, ih]

theorem mapGet_eq_none_of_not_mem_keys {m : List (String × Int)} {k : String}
    (h : k ∉ m.map Prod.fst) : mapGet m k = none := by
  induction m with
  | nil => rfl
  | cons p rest ih =>
    simp only [List.map_cons, List.mem_cons, not_or] at h
    simp [mapGet, Ne.symm h.1, ih h.2]

theorem mapGet_filter_none {m : List (String × Int)} {k : String}
    (f : String × Int → Bool) (h : mapGet m k = none) :
    mapGet (m.filter f) k = none := by
  induction m with
  | nil => rfl
  | cons p rest ih =>
    simp only [mapGet] at h
    by_cases hk : p.1 = k
    · simp [hk] at h
    · simp only [hk, if_false] at h
      by_cases hf : f p = true
      · simp [List.filter_cons, hf, mapGet, hk, ih h]
      · simp only [Bool.not_eq_true] at hf
        simp [List.filter_cons, hf, ih h]

/- Under unique keys the two-pass sweep of the source (collect expired
keys, then delete those keys) equals a single filter keeping the young
entries. -/
theorem cleanupSweep_eq_filter (now : Int) (m : List (String × Int))
    (hnd : (m.map Prod.fst).Nodup) :
    cleanupSweep now m =
      m.filter (fun p => decide (now - p.2 ≤ IDEMPOTENCY_CACHE_DURATION)) := by
  unfold cleanupSweep
  refine List.filter_congr ?_
  intro p hp
  have hinj := List.inj_on_of_nodup_map hnd
  rcases hage : decide (now - p.2 ≤ IDEMPOTENCY_CACHE_DURATION) with _ | _
  · -- expired entry: its key is collected, so it is deleted
    simp only [decide_eq_false_iff_not, not_le] at hage
    have hpmem : p ∈ m.filter (fun q => decide (IDEMPOTENCY_CACHE_DURATION < now - q.2)) :=
      List.mem_filter.mpr ⟨hp, by simpa using hage⟩
    have hkey : p.1 ∈ (m.filter (fun q => decide (IDEMPOTENCY_CACHE_DURATION < now - q.2))).map Prod.fst :=
      List.mem_map_of_mem _ hpmem
    have h1 : ((m.filter (fun q => decide (IDEMPOTENCY_CACHE_DURATION < now - q.2))).map Prod.fst).contains p.1 = true :=
      List.elem_iff.mpr hkey
    rw [h1, Bool.not_true]
  · -- young entry: no entry with its key is expired, so it survives
    simp only [decide_eq_true_eq] at hage
    rcases hcont : (((m.filter (fun q => decide (IDEMPOTENCY_CACHE_DURATION < now - q.2))).map Prod.fst).contains p.1) with _ | _
    · rw [hcont, Bool.not_false]
    · exfalso
      have hkey := List.elem_iff.mp hcont
      rcases List.mem_map.mp hkey with ⟨q, hq, hqk⟩
      rcases List.mem_filter.mp hq with ⟨hqm, hqexp⟩
      have hqp := hinj hqm hp hqk
      subst hqp
      simp only [decide_eq_true_eq] at hqexp
      omega

theorem mapGet_filter_age (now : Int) (m : List (String × Int)) (k : String) (t : Int)
    (hnd : (m.map Prod.fst).Nodup) (hget : mapGet m k = some t) :
    (now - t ≤ IDEMPOTENCY_CACHE_DURATION →
      mapGet (m.filter (fun p => decide (now - p.2 ≤ IDEMPOTENCY_CACHE_DURATION))) k = some t) ∧
    (IDEMPOTENCY_CACHE_DURATION < now - t →
      mapGet (m.filter (fun p => decide (now - p.2 ≤ IDEMPOTENCY_CACHE_DURATION))) k = none) := by
  have filterConsAge : ∀ (q : String × Int) (rest : List (String × Int)),
      (q :: rest).filter (fun p => decide (now - p.2 ≤ IDEMPOTENCY_CACHE_DURATION)) =
        if now - q.2 ≤ IDEMPOTENCY_CACHE_DURATION then
          q :: rest.filter (fun p => decide (now - p.2 ≤ IDEMPOTENCY_CACHE_DURATION))
        else rest.filter (fun p => decide (now - p.2 ≤ IDEMPOTENCY_CACHE_DURATION)) := by
    intro q rest
    by_cases hq : now - q.2 ≤ IDEMPOTENCY_CACHE_DURATION
    · rw [if_pos hq]
      exact List.filter_cons_of_pos (decide_eq_true hq)
    · rw [if_neg hq]
      refine List.filter_cons_of_neg ?_
      simp [hq]
  induction m with
  | nil => simp [mapGet] at hget
  | cons p rest ih =>
    rcases p with ⟨k1, t1⟩
    simp only [List.map_cons, List.nodup_cons] at hnd
    by_cases hk : k1 = k
    · subst hk
      have ht : t1 = t := by
        simp only [mapGet, if_pos rfl] at hget
        exact Option.some.inj hget
      subst ht
      have hrest : mapGet rest k1 = none :=
        mapGet_eq_none_of_not_mem_keys hnd.1
      constructor
      · intro hyoung
        rw [filterConsAge, if_pos hyoung]
        simp [mapGet]
      · intro hold
        rw [filterConsAge, if_neg (by omega)]
        exact mapGet_filter_none _ hrest
    · have hget2 : mapGet rest k = some t := by
        simp only [mapGet, if_neg hk] at hget
        exact hget
      have ih2 := ih hnd.2 hget2
      by_cases hf2 : now - t1 ≤ IDEMPOTENCY_CACHE_DURATION
      · refine ⟨fun hyoung => ?_, fun hold => ?_⟩
        · rw [filterConsAge, if_pos hf2]
          simp only [mapGet, if_neg hk]
          exact ih2.1 hyoung
        · rw [filterConsAge, if_pos hf2]
          simp only [mapGet, if_neg hk]
          exact ih2.2 hold
      · refine ⟨fun hyoung => ?_, fun hold => ?_⟩
        · rw [filterConsAge, if_neg hf2]
          exact ih2.1 hyoung
        · rw [filterConsAge, if_neg hf2]
          exact ih2.2 hold

/- Characterization of one processMessage run that reaches the dispatch
step: shutdown unobserved at both checkpoints, a valid in-namespace
first-time key, and a fetch that completes. -/
theorem dispatchPathEvents (env : Env) (msg : Message) (keys0 : List (String × Int))
    (c0 : Int) (s3 : ParsedS3) (obj : S3Object)
    (h1 : env.shutdownAtStart = false)
    (h2 : parseSqsMessage env.decodeURIComponent msg.body = .ok (some s3))
    (h3 : strStartsWith s3.key (clientsRoot env.clientId) = true)
    (h4 : mapHas keys0 s3.key = false)
    (h5 : env.getObject = .ok obj)
    (h6 : obj.streamOk = true)
    (h7 : env.shutdownAfterFetch = false) :
    (processMessage env msg keys0 c0).events =
      [PEvent.fetchReq, PEvent.fileCreate (tmpFilePath s3.key)] ++
        (jobPrint env obj s3.key).cmds.map PEvent.execCmd ++
        [PEvent.printReq (jobPrinterId obj) (jobPrint env obj s3.key).ok,
         PEvent.mark s3.key, PEvent.deleteReq] ++
        (if env.unlinkOk then [PEvent.unlinkFile (tmpFilePath s3.key)] else []) := by
  simp [processMessage, processTry, h1, h2, h3, h4, h5, h6, h7,
    jobPrint, jobPrinterId, jobPrintOptions]

theorem dispatchPathKeys (env : Env) (msg : Message) (keys0 : List (String × Int))
    (c0 : Int) (s3 : ParsedS3) (obj : S3Object)
    (h1 : env.shutdownAtStart = false)
    (h2 : parseSqsMessage env.decodeURIComponent msg.body = .ok (some s3))
    (h3 : strStartsWith s3.key (clientsRoot env.clientId) = true)
    (h4 : mapHas keys0 s3.key = false)
    (h5 : env.getObject = .ok obj)
    (h6 : obj.streamOk = true)
    (h7 : env.shutdownAfterFetch = false) :
    (processMessage env msg keys0 c0).keys = mapSet keys0 s3.key env.now := by
  simp [processMessage, processTry, h1, h2, h3, h4, h5, h6, h7]

/- Characterization of a run whose fetch completes but that observes the
shutdown flag at the post-fetch checkpoint: the job is skipped without a
print request and without a delete request. -/
theorem skipPathEvents (env : Env) (msg : Message) (keys0 : List (String × Int))
    (c0 : Int) (s3 : ParsedS3) (obj : S3Object)
    (h1 : env.shutdownAtStart = false)
    (h2 : parseSqsMessage env.decodeURIComponent msg.body = .ok (some s3))
    (h3 : strStartsWith s3.key (clientsRoot env.clientId) = true)
    (h4 : mapHas keys0 s3.key = false)
    (h5 : env.getObject = .ok obj)
    (h6 : obj.streamOk = true)
    (h7 : env.shutdownAfterFetch = true) :
    (processMessage env msg keys0 c0).events =
      [PEvent.fetchReq, PEvent.fileCreate (tmpFilePath s3.key)] ++
        (if env.unlinkOk then [PEvent.unlinkFile (tmpFilePath s3.key)] else []) := by
  simp [processMessage, processTry, h1, h2, h3, h4, h5, h6, h7]

/- Claim theorems. -/

/-- C1, counterexample: a run in which printFile returns false (live mode,
lp fails) still marks the key in the idempotency cache and still issues
the DeleteMessage request, contradicting the claim that the cache-mark and
delete happen on dispatch success only. -/
theorem c1_counterexample :
    PEvent.printReq "192.168.1.5/socket" false ∈
      (processMessage (sampleEnv false false false false false true true true) (sampleMsg sampleKey) [] 0).events ∧
    PEvent.mark sampleKey ∈
      (processMessage (sampleEnv false false false false false true true true) (sampleMsg sampleKey) [] 0).events ∧
    PEvent.deleteReq ∈
      (processMessage (sampleEnv false false false false false true true true) (sampleMsg sampleKey) [] 0).events ∧
    mapHas (processMessage (sampleEnv false false false false false true true true) (sampleMsg sampleKey) [] 0).keys sampleKey = true := by
  decide

/-- C1, amended: on every run that reaches the dispatch step, the pipeline
records the key in the idempotency cache and issues the delete request
regardless of the boolean printFile returns, with the mark strictly before
the delete request; only an exception can prevent them. -/
theorem c1_mark_then_delete_regardless (env : Env) (msg : Message)
    (keys0 : List (String × Int)) (c0 : Int) (s3 : ParsedS3) (obj : S3Object)
    (h1 : env.shutdownAtStart = false)
    (h2 : parseSqsMessage env.decodeURIComponent msg.body = .ok (some s3))
    (h3 : strStartsWith s3.key (clientsRoot env.clientId) = true)
    (h4 : mapHas keys0 s3.key = false)
    (h5 : env.getObject = .ok obj)
    (h6 : obj.streamOk = true)
    (h7 : env.shutdownAfterFetch = false) :
    (∃ evs1 evs2, (processMessage env msg keys0 c0).events =
      evs1 ++ PEvent.mark s3.key :: PEvent.deleteReq :: evs2) ∧
    mapGet (processMessage env msg keys0 c0).keys s3.key = some env.now := by
  constructor
  · refine ⟨[PEvent.fetchReq, PEvent.fileCreate (tmpFilePath s3.key)] ++
      (jobPrint env obj s3.key).cmds.map PEvent.execCmd ++
      [PEvent.printReq (jobPrinterId obj) (jobPrint env obj s3.key).ok],
      (if env.unlinkOk then [PEvent.unlinkFile (tmpFilePath s3.key)] else []), ?_⟩
    rw [dispatchPathEvents env msg keys0 c0 s3 obj h1 h2 h3 h4 h5 h6 h7]
    simp
  · rw [dispatchPathKeys env msg keys0 c0 s3 obj h1 h2 h3 h4 h5 h6 h7]
    exact mapGet_mapSet_self keys0 s3.key env.now

theorem c1_mark_then_delete_regardless_witness :
    mapGet (processMessage (sampleEnv true true false false false true true true) (sampleMsg sampleKey) [] 0).keys sampleKey = some 1000 :=
  (c1_mark_then_delete_regardless (sampleEnv true true false false false true true true)
    (sampleMsg sampleKey) [] 0 { bucket := .val (.str "printserver-test"), key := sampleKey }
    (sampleObj true) rfl rfl rfl rfl rfl rfl rfl).2

/-- C2, counterexample: a message body that is not valid JSON makes the
parser throw (it does not return an isValid flag), and the pipeline issues
no delete request: the message is left for redelivery, contradicting the
claim that every malformed body is deleted. -/
theorem c2_counterexample :
    parseSqsMessage plainDecode none = .error () ∧
    (processMessage (sampleEnv false false false false false true true true) { body := none } [] 0).events = [] ∧
    (processMessage (sampleEnv false false false false false true true true) { body := none } [] 0).threw = true := by
  refine ⟨?_, ?_, ?_⟩
  · rfl
  · decide
  · decide

/-- C2, amended: a malformed body on which the parser returns the
isValid-false result (valid JSON without a truthy first record) is deleted
without fetch or dispatch, while a body on which the parser throws (not
valid JSON, or a first record without the expected shape) is neither
deleted nor fetched nor dispatched and redelivers. -/
theorem c2_malformed_body_behaviour (env : Env) (msg : Message)
    (keys0 : List (String × Int)) (c0 : Int)
    (h1 : env.shutdownAtStart = false) :
    (parseSqsMessage env.decodeURIComponent msg.body = .ok none →
      (processMessage env msg keys0 c0).events = [PEvent.deleteReq]) ∧
    (parseSqsMessage env.decodeURIComponent msg.body = .error () →
      (processMessage env msg keys0 c0).events = [] ∧
      (processMessage env msg keys0 c0).threw = true) := by
  constructor
  · intro h2
    simp [processMessage, processTry, h1, h2]
  · intro h2
    refine ⟨?_, ?_⟩ <;> simp [processMessage, processTry, h1, h2]

theorem c2_malformed_body_behaviour_witness :
    (processMessage (sampleEnv false false false false false true true true)
      { body := some (.obj []) } [] 0).events = [PEvent.deleteReq] :=
  (c2_malformed_body_behaviour (sampleEnv false false false false false true true true)
    { body := some (.obj []) } [] 0 rfl).1 rfl

/-- C4, counterexample: for the unregistered network identifier
192.168.0.9/http the unsupported-protocol Error is raised and swallowed
inside registration, and printFile still executes the lp submission
command for the derived local name, contradicting the claim that the job
is aborted with no print submission attempted. -/
theorem c4_counterexample :
    (printFile (samplePrintEnv false false) true "192.168.0.9/http" "tmp/label.pdf" "").raisedUnsupported = true ∧
    "lp -d _192_168_0_9 \"tmp/label.pdf\"" ∈
      (printFile (samplePrintEnv false false) true "192.168.0.9/http" "tmp/label.pdf" "").cmds := by
  decide

/-- C4, amended: for an unsupported protocol the registration step raises
the UnsupportedProtocolError internally, executes no lpadmin command and
returns false, but printFile ignores that result and still attempts the lp
print submission to the derived local name (outside dry-run mode). -/
theorem c4_unsupported_protocol (pe : PrintEnv) (printerId ip proto filePath opts : String)
    (hres : resolvePrinterId printerId = some (ip, proto))
    (hs : proto ≠ "socket") (hl : proto ≠ "lpd") (hi : proto ≠ "ipp")
    (hreg : printerListedB pe (getLocalPrinterName ip) = false)
    (htm : pe.testMode = false) :
    (registerNewPrinter pe ip proto).raisedUnsupported = true ∧
    (registerNewPrinter pe ip proto).ok = false ∧
    (registerNewPrinter pe ip proto).cmds = [] ∧
    (printFile pe true printerId filePath opts).raisedUnsupported = true ∧
    lpCommand (getLocalPrinterName ip) filePath opts ∈
      (printFile pe true printerId filePath opts).cmds := by
  have hne : printerId ≠ "" := by
    intro he
    rw [he] at hres
    have h0 : resolvePrinterId "" = none := by decide
    rw [h0] at hres
    exact Option.noConfusion hres
  have hrnp : registerNewPrinter pe ip proto =
      { ok := false, cmds := [], raisedUnsupported := true } := by
    simp [registerNewPrinter, regCommand, hs, hl, hi]
  refine ⟨by rw [hrnp], by rw [hrnp], by rw [hrnp], ?_, ?_⟩
  · rcases hlp : pe.lpOk with _ | _ <;>
      simp [printFile, hne, hres, hreg, hrnp, htm, hlp]
  · rcases hlp : pe.lpOk with _ | _ <;>
      simp [printFile, hne, hres, hreg, hrnp, htm, hlp]

theorem c4_unsupported_protocol_witness :
    lpCommand (getLocalPrinterName "192.168.0.9") "tmp/label.pdf" "" ∈
      (printFile (samplePrintEnv false false) true "192.168.0.9/http" "tmp/label.pdf" "").cmds :=
  (c4_unsupported_protocol (samplePrintEnv false false) "192.168.0.9/http" "192.168.0.9" "http"
    "tmp/label.pdf" "" (by decide) (by decide) (by decide) (by decide) (by decide) rfl).2.2.2.2

/-- C5, counterexample: when the body stream fails after the write stream
created the temporary file, the fetch throws before localFilePath is
assigned, and the finally block does not remove the created file,
contradicting the claim that every file created by the fetch step is
removed when processing finishes. -/
theorem c5_counterexample :
    PEvent.fileCreate "tmp/label.pdf" ∈
      (processMessage (sampleEnv false false false false false false true true) (sampleMsg sampleKey) [] 0).events ∧
    (processMessage (sampleEnv false false false false false false true true) (sampleMsg sampleKey) [] 0).events.all
      (fun e => !isUnlink e) = true := by
  decide

/-- C5, amended: for every run whose fetch step completes (the job record
is returned), the finally block removes the temporary file on every
outcome, success, failure or skip, provided the unlink call itself
succeeds; a file created by a fetch that fails mid-stream is not
removed. -/
theorem c5_cleanup_after_fetch (env : Env) (msg : Message)
    (keys0 : List (String × Int)) (c0 : Int) (s3 : ParsedS3) (obj : S3Object)
    (h1 : env.shutdownAtStart = false)
    (h2 : parseSqsMessage env.decodeURIComponent msg.body = .ok (some s3))
    (h3 : strStartsWith s3.key (clientsRoot env.clientId) = true)
    (h4 : mapHas keys0 s3.key = false)
    (h5 : env.getObject = .ok obj)
    (h6 : obj.streamOk = true)
    (hu : env.unlinkOk = true) :
    PEvent.unlinkFile (tmpFilePath s3.key) ∈ (processMessage env msg keys0 c0).events := by
  rcases h7 : env.shutdownAfterFetch with _ | _
  · rw [dispatchPathEvents env msg keys0 c0 s3 obj h1 h2 h3 h4 h5 h6 h7]
    simp [hu]
  · rw [skipPathEvents env msg keys0 c0 s3 obj h1 h2 h3 h4 h5 h6 h7]
    simp [hu]

theorem c5_cleanup_after_fetch_witness :
    PEvent.unlinkFile (tmpFilePath sampleKey) ∈
      (processMessage (sampleEnv true true false false false true true true) (sampleMsg sampleKey) [] 0).events :=
  c5_cleanup_after_fetch (sampleEnv true true false false false true true true)
    (sampleMsg sampleKey) [] 0 { bucket := .val (.str "printserver-test"), key := sampleKey }
    (sampleObj true) rfl rfl rfl rfl rfl rfl rfl

/-- C6: a valid in-namespace notification whose key is already in the
idempotency cache produces exactly one delete request, with no fetch, no
dispatch and an unchanged cache. -/
theorem c6_duplicate_only_deletes (env : Env) (msg : Message)
    (keys0 : List (String × Int)) (c0 : Int) (s3 : ParsedS3)
    (h1 : env.shutdownAtStart = false)
    (h2 : parseSqsMessage env.decodeURIComponent msg.body = .ok (some s3))
    (h3 : strStartsWith s3.key (clientsRoot env.clientId) = true)
    (h4 : mapHas keys0 s3.key = true) :
    (processMessage env msg keys0 c0).events = [PEvent.deleteReq] ∧
    (processMessage env msg keys0 c0).keys = keys0 := by
  refine ⟨?_, ?_⟩ <;> simp [processMessage, processTry, h1, h2, h3, h4]

theorem c6_duplicate_only_deletes_witness :
    (processMessage (sampleEnv false false false false false true true true)
      (sampleMsg sampleKey) [(sampleKey, 5)] 0).events = [PEvent.deleteReq] :=
  (c6_duplicate_only_deletes (sampleEnv false false false false false true true true)
    (sampleMsg sampleKey) [(sampleKey, 5)] 0
    { bucket := .val (.str "printserver-test"), key := sampleKey } rfl rfl rfl rfl).1

/-- C7, counterexample: the identifier a/ contains exactly one slash, so
the three ordered rules of the claim yield a network destination with
empty protocol, but the code treats it as a direct local device name: the
parsing is not the claimed pure function. -/
theorem c7_counterexample :
    printFileResolve "a/" = Resolved.direct "a/" ∧
    claimResolve "a/" = Resolved.network "a" "" ∧
    printFileResolve "a/" ≠ claimResolve "a/" := by
  decide

/-- C7, amended: the resolver is the three-rule function amended so that
the single-slash rule applies only when both sides are nonempty (otherwise
the identifier is a direct name); the example identifier resolves to
protocol socket, address 192.168.1.5, and the derived local name is
deterministic: _192_168_1_5. -/
theorem c7_resolver_rules :
    (∀ s : String, printFileResolve s = claimResolveAmended s) ∧
    printFileResolve "192.168.1.5/socket" = Resolved.network "192.168.1.5" "socket" ∧
    getLocalPrinterName "192.168.1.5" = "_192_168_1_5" :=
  ⟨printFileResolve_eq_amended, by decide, by decide⟩

/-- C8: after one sweep over a cache with unique keys, every entry older
than the retention window is absent and every entry within the window is
still present with its original timestamp. -/
theorem c8_sweep_retention (now : Int) (m : List (String × Int)) (k : String) (t : Int)
    (hnd : (m.map Prod.fst).Nodup) (hget : mapGet m k = some t) :
    (IDEMPOTENCY_CACHE_DURATION < now - t → mapGet (cleanupSweep now m) k = none) ∧
    (now - t ≤ IDEMPOTENCY_CACHE_DURATION → mapGet (cleanupSweep now m) k = some t) := by
  rw [cleanupSweep_eq_filter now m hnd]
  exact ⟨(mapGet_filter_age now m k t hnd hget).2, (mapGet_filter_age now m k t hnd hget).1⟩

theorem c8_sweep_retention_witness :
    mapGet (cleanupSweep 3700000 [("a", 0), ("b", 3000000)]) "a" = none ∧
    mapGet (cleanupSweep 3700000 [("a", 0), ("b", 3000000)]) "b" = some 3000000 :=
  ⟨(c8_sweep_retention 3700000 [("a", 0), ("b", 3000000)] "a" 0 (by decide) (by decide)).1 (by decide),
   (c8_sweep_retention 3700000 [("a", 0), ("b", 3000000)] "b" 3000000 (by decide) (by decide)).2 (by decide)⟩

/-- C9, counterexample: in dry-run mode a network job still executes the
external lpstat -p -d command while checking registration, contradicting
the claim that no external command is executed; the result is still
reported as success. -/
theorem c9_counterexample :
    (printFile (samplePrintEnv true true) true "192.168.1.5/socket" "tmp/label.pdf" "").ok = true ∧
    (printFile (samplePrintEnv true true) true "192.168.1.5/socket" "tmp/label.pdf" "").cmds = ["lpstat -p -d"] ∧
    (printFile (samplePrintEnv true true) true "192.168.1.5/socket" "tmp/label.pdf" "").cmds ≠ [] := by
  decide

/-- C9, amended: in dry-run mode every job that is otherwise valid through
dispatch reports success and executes neither the lp submission nor any
lpadmin registration command; the only external command it may execute is
the read-only lpstat registration query. -/
theorem c9_testmode_no_submission (pe : PrintEnv) (pid filePath opts : String)
    (htm : pe.testMode = true) (hne : pid ≠ "") :
    (printFile pe true pid filePath opts).ok = true ∧
    (printFile pe true pid filePath opts).cmds.all (fun c => c = "lpstat -p -d") = true := by
  have hreg : ∀ ip proto, (registerNewPrinter pe ip proto).cmds = [] := by
    intro ip proto
    rcases hrc : regCommand (getLocalPrinterName ip) ip proto (getPPDPathForPrinter pe.ppdFiles proto) with _ | c
    · simp [registerNewPrinter, hrc]
    · simp [registerNewPrinter, hrc, htm]
  rcases hres : resolvePrinterId pid with _ | ⟨ip, proto⟩
  · refine ⟨?_, ?_⟩ <;> simp [printFile, hne, hres, htm]
  · rcases hl : printerListedB pe (getLocalPrinterName ip) with _ | _
    · refine ⟨?_, ?_⟩ <;> simp [printFile, hne, hres, htm, hl, hreg]
    · refine ⟨?_, ?_⟩ <;> simp [printFile, hne, hres, htm, hl]

theorem c9_testmode_no_submission_witness :
    (printFile (samplePrintEnv true true) true "Label_Printer_1" "tmp/label.pdf" "").ok = true :=
  (c9_testmode_no_submission (samplePrintEnv true true) "Label_Printer_1" "tmp/label.pdf" ""
    rfl (by decide)).1

/-- C10: every processMessage invocation takes the counter to its entry
value plus one while processing and back to the entry value when the
finally block has run, on every path, so a counter starting nonnegative
stays nonnegative. -/
theorem c10_counter_balance (env : Env) (msg : Message)
    (keys0 : List (String × Int)) (c0 : Int) (h : 0 ≤ c0) :
    (processMessage env msg keys0 c0).countDuring = c0 + 1 ∧
    (processMessage env msg keys0 c0).countFinal = c0 ∧
    0 ≤ (processMessage env msg keys0 c0).countDuring ∧
    0 ≤ (processMessage env msg keys0 c0).countFinal := by
  refine ⟨?_, ?_, ?_, ?_⟩ <;> simp [processMessage] <;> omega

theorem c10_counter_balance_witness :
    (processMessage (sampleEnv false false false false false true true true)
      (sampleMsg sampleKey) [] 0).countFinal = 0 :=
  (c10_counter_balance (sampleEnv false false false false false true true true)
    (sampleMsg sampleKey) [] 0 (by decide)).2.1

end PrintServer
